import Mathlib

/-!
Shallow embedding of `mautrix_signal/__main__.py` (class `SignalBridge`):
the admission-control metric tick (`_update_active_puppet_metric`), the
periodic sync loop (`_periodic_sync_loop` / `_actual_periodic_sync_loop`),
the bridge-info resend sweep (`resend_bridge_info`) and the startup
sequence (`start`), together with theorems checking the specification's
claims about them.

Python numbers (int timestamps, float true division) are modelled over ℚ,
which matches Python's exact integer arithmetic and true division at the
magnitudes involved.  Coroutine effects are made explicit: each awaited
call is a parameter of the model (its outcome — normal return, exception,
cancellation — is an input), and gauge `.set` calls are recorded in the
result instead of mutating a global.
-/

namespace MautrixSignal

/-- Module constant, line 39: `ONE_DAY_MS = 24 * 60 * 60 * 1000`. -/
def ONE_DAY_MS : ℚ := 24 * 60 * 60 * 1000

/-- Module constant, line 40: `SYNC_JITTER = 10`. -/
def SYNC_JITTER : ℚ := 10

/-- Module constant, line 38: `ACTIVE_USER_METRICS_INTERVAL_S = 60`. -/
def ACTIVE_USER_METRICS_INTERVAL_S : ℕ := 60

/-- A puppet row as returned by `Puppet.all_with_initial_activity()`:
both timestamps are milliseconds since the epoch. -/
structure PuppetActivity where
  first_activity_ts : ℚ
  last_activity_ts : ℚ

/-- Line 155:
`daysOfActivity = (user.last_activity_ts - user.first_activity_ts / 1000) / ONE_DAY_MS`. -/
def daysOfActivity (u : PuppetActivity) : ℚ :=
  (u.last_activity_ts - u.first_activity_ts / 1000) / ONE_DAY_MS

/-- Line 157:
`isActive = maxActivityDays is None or (currentMs - user.last_activity_ts) <= (maxActivityDays * ONE_DAY_MS)`. -/
def isActive (maxActivityDays : Option ℚ) (currentMs : ℚ) (u : PuppetActivity) : Bool :=
  match maxActivityDays with
  | none => true
  | some m => decide (currentMs - u.last_activity_ts ≤ m * ONE_DAY_MS)

/-- The accumulation loop of lines 153-159: `activeUsers += 1` for every user
with `isActive and daysOfActivity > minActivityDays`. -/
def countActiveUsers (maxActivityDays : Option ℚ) (minActivityDays : ℚ) (currentMs : ℚ) :
    List PuppetActivity → ℕ
  | [] => 0
  | u :: us =>
    (if isActive maxActivityDays currentMs u && decide (daysOfActivity u > minActivityDays)
      then 1 else 0)
      + countActiveUsers maxActivityDays minActivityDays currentMs us

/-- The `bridge.limits.*` configuration values read at lines 149-150 and 160-161. -/
structure LimitsConfig where
  puppet_inactivity_days : Option ℚ
  min_puppet_activity_days : ℚ
  block_on_limit_reached : Option Bool
  max_puppet_limit : Option ℚ

/-- The observable outcome of one `_update_active_puppet_metric` call: the new
`bridge_blocked` attribute, the computed `activeUsers`, and the gauge `.set`
calls made during the tick (`none` means the gauge was not touched). -/
structure TickResult where
  bridge_blocked : Bool
  activeUsers : ℕ
  blockingGauge : Option ℤ
  activeGauge : Option ℕ

/-- Lines 148-166, `_update_active_puppet_metric`.  `now_s` is the value
returned by `time.time()` (seconds since the epoch); the code computes
`currentMs = time.time() / 1000` (line 152).  `blocked0` is the value of
`self.bridge_blocked` before the call. -/
def updateActivePuppetMetric (cfg : LimitsConfig) (users : List PuppetActivity)
    (now_s : ℚ) (blocked0 : Bool) : TickResult :=
  let currentMs := now_s / 1000
  let activeUsers :=
    countActiveUsers cfg.puppet_inactivity_days cfg.min_puppet_activity_days currentMs users
  match cfg.block_on_limit_reached, cfg.max_puppet_limit with
  | some _, some lim =>
    let b := decide (lim < (activeUsers : ℚ))
    { bridge_blocked := b
      activeUsers := activeUsers
      blockingGauge := some (if b then 1 else 0)
      activeGauge := some activeUsers }
  | none, _ =>
    { bridge_blocked := blocked0
      activeUsers := activeUsers
      blockingGauge := none
      activeGauge := some activeUsers }
  | _, none =>
    { bridge_blocked := blocked0
      activeUsers := activeUsers
      blockingGauge := none
      activeGauge := some activeUsers }

/-- Modelled from the spec (§4.3 step 3, claim C1): the same activity
predicate with the current time expressed in milliseconds (`now_ms`),
which is what the spec's `(now_ms - last_activity_ts)` wording demands. -/
def isActiveSpecMs (maxActivityDays : Option ℚ) (nowMs : ℚ) (u : PuppetActivity) : Bool :=
  match maxActivityDays with
  | none => true
  | some m => decide (nowMs - u.last_activity_ts ≤ m * ONE_DAY_MS)

/-- Modelled from the spec: the active count of §4.3 with the inactivity
comparison made against the current time in milliseconds. -/
def countActiveSpecMs (maxActivityDays : Option ℚ) (minActivityDays : ℚ) (nowMs : ℚ) :
    List PuppetActivity → ℕ
  | [] => 0
  | u :: us =>
    (if isActiveSpecMs maxActivityDays nowMs u && decide (daysOfActivity u > minActivityDays)
      then 1 else 0)
      + countActiveSpecMs maxActivityDays minActivityDays nowMs us

/-- In every branch of the tick the computed count is the loop's count. -/
lemma updateActivePuppetMetric_activeUsers (cfg : LimitsConfig) (users : List PuppetActivity)
    (now_s : ℚ) (blocked0 : Bool) :
    (updateActivePuppetMetric cfg users now_s blocked0).activeUsers =
      countActiveUsers cfg.puppet_inactivity_days cfg.min_puppet_activity_days
        (now_s / 1000) users := by
  rcases cfg with ⟨mxA, mnA, bl, ml⟩
  cases bl <;> cases ml <;> rfl

/-- The accumulation loop counts exactly the users passing both checks. -/
lemma countActiveUsers_eq_filter (maxA : Option ℚ) (minA : ℚ) (cur : ℚ)
    (l : List PuppetActivity) :
    countActiveUsers maxA minA cur l =
      (l.filter fun u => isActive maxA cur u && decide (daysOfActivity u > minA)).length := by
  induction l with
  | nil => rfl
  | cons u us ih =>
    simp only [countActiveUsers, List.filter_cons]
    cases h : isActive maxA cur u && decide (daysOfActivity u > minA) <;>
      simp [h, ih, Nat.add_comm]

/-- The tick leaves `bridge_blocked` untouched when either limit option is unset. -/
lemma updateActivePuppetMetric_blocked_frame (cfg : LimitsConfig) (users : List PuppetActivity)
    (now_s : ℚ) (blocked0 : Bool)
    (h : cfg.block_on_limit_reached = none ∨ cfg.max_puppet_limit = none) :
    (updateActivePuppetMetric cfg users now_s blocked0).bridge_blocked = blocked0 := by
  rcases cfg with ⟨mxA, mnA, bl, ml⟩
  cases bl <;> cases ml <;> simp_all [updateActivePuppetMetric]

/-- Claim C1 (code bug): with `max_inactivity_days = 1`, `min_activity_days = 2`
and `time.time() = 10^9` (so the intended "current time in milliseconds" is
`10^9 * 1000`), a puppet whose last activity was 100 days ago in milliseconds
(`last_activity_ts = 991360000000`) is nevertheless counted active by the code,
because line 152 computes `currentMs = time.time() / 1000` instead of the
current time in milliseconds; under the claim's millisecond semantics
(`countActiveSpecMs`) the same puppet is not counted. -/
theorem c1_inactivity_time_unit_bug :
    (updateActivePuppetMetric ⟨some 1, 2, none, none⟩
        [⟨0, 991360000000⟩] 1000000000 false).activeUsers = 1
    ∧ countActiveSpecMs (some 1) 2 (1000000000 * 1000) [⟨0, 991360000000⟩] = 0 := by
  constructor
  · norm_num [updateActivePuppetMetric, countActiveUsers, isActive, daysOfActivity, ONE_DAY_MS]
  · norm_num [countActiveSpecMs, isActiveSpecMs, daysOfActivity, ONE_DAY_MS]

/-- Claim C2 (counterexample): on a tick where `block_on_limit_reached` is
unset, the code does not set the blocked-state gauge at all (while it does set
the active-puppet gauge), contradicting "both gauges are set on every tick
regardless of configuration". -/
theorem c2_blocking_gauge_counterexample :
    (updateActivePuppetMetric ⟨none, 0, none, some 3⟩ [] 0 false).blockingGauge = none
    ∧ (updateActivePuppetMetric ⟨none, 0, none, some 3⟩ [] 0 false).activeGauge = some 0 := by
  exact ⟨rfl, rfl⟩

/-- Claim C2 (amended): every tick sets the active-puppet gauge (to the
computed count), but the blocked-state gauge is set on a tick exactly when
both `block_on_limit_reached` and `max_puppet_limit` are non-null. -/
theorem c2_gauges_amended (cfg : LimitsConfig) (users : List PuppetActivity)
    (now_s : ℚ) (blocked0 : Bool) :
    (updateActivePuppetMetric cfg users now_s blocked0).activeGauge =
        some ((updateActivePuppetMetric cfg users now_s blocked0).activeUsers)
    ∧ ((updateActivePuppetMetric cfg users now_s blocked0).blockingGauge.isSome = true ↔
        (cfg.block_on_limit_reached.isSome = true ∧ cfg.max_puppet_limit.isSome = true)) := by
  rcases cfg with ⟨mxA, mnA, bl, ml⟩
  cases bl <;> cases ml <;> simp [updateActivePuppetMetric]

/-- Claim C4: a tick with `block_on_limit_reached` or `max_puppet_limit` unset
leaves `bridge_blocked` exactly as it was; a tick with both set assigns
`bridge_blocked = (max_puppet_limit < activeUsers)`. -/
theorem c4_blocked_frame (cfg : LimitsConfig) (users : List PuppetActivity)
    (now_s : ℚ) (blocked0 : Bool) :
    ((cfg.block_on_limit_reached = none ∨ cfg.max_puppet_limit = none) →
      (updateActivePuppetMetric cfg users now_s blocked0).bridge_blocked = blocked0)
    ∧ (∀ f lim, cfg.block_on_limit_reached = some f → cfg.max_puppet_limit = some lim →
      (updateActivePuppetMetric cfg users now_s blocked0).bridge_blocked =
        decide (lim < ((updateActivePuppetMetric cfg users now_s blocked0).activeUsers : ℚ))) := by
  constructor
  · exact updateActivePuppetMetric_blocked_frame cfg users now_s blocked0
  · intro f lim hf hl
    rcases cfg with ⟨mxA, mnA, bl, ml⟩
    cases hf
    cases hl
    rfl

/-- Witness for C4: with `block_on_limit_reached` unset and `bridge_blocked`
previously `true`, the tick leaves it `true`; with both limits set and limit 0
against one active-looking empty scan, it computes the comparison. -/
theorem c4_blocked_frame_witness :
    (updateActivePuppetMetric ⟨none, 0, none, some 3⟩ [] 0 true).bridge_blocked = true
    ∧ (updateActivePuppetMetric ⟨none, 0, some true, some 3⟩ [] 0 true).bridge_blocked =
        decide ((3 : ℚ) < ((updateActivePuppetMetric ⟨none, 0, some true, some 3⟩
          [] 0 true).activeUsers : ℚ)) := by
  constructor
  · exact (c4_blocked_frame ⟨none, 0, none, some 3⟩ [] 0 true).1 (Or.inl rfl)
  · exact (c4_blocked_frame ⟨none, 0, some true, some 3⟩ [] 0 true).2 true 3 rfl rfl

/-- Claim C5: the tick's active count is the number of scanned puppets passing
the activity checks, with `days_of_activity` computed by the literal formula
`(last_activity_ts - first_activity_ts / 1000) / (24*60*60*1000)` — the first
timestamp divided by 1000, the last not. -/
theorem c5_days_of_activity_formula (cfg : LimitsConfig) (users : List PuppetActivity)
    (now_s : ℚ) (blocked0 : Bool) :
    (updateActivePuppetMetric cfg users now_s blocked0).activeUsers =
      (users.filter fun u =>
        isActive cfg.puppet_inactivity_days (now_s / 1000) u
          && decide ((u.last_activity_ts - u.first_activity_ts / 1000) / (24 * 60 * 60 * 1000 : ℚ)
              > cfg.min_puppet_activity_days)).length := by
  rw [updateActivePuppetMetric_activeUsers, countActiveUsers_eq_filter]
  simp only [daysOfActivity, ONE_DAY_MS]

/-- Outcome of an awaited `user.sync()` call (line 104): normal return,
an ordinary exception, or `asyncio.CancelledError`. -/
inductive SyncOutcome
  | ok
  | err
  | cancelled
deriving DecidableEq

/-- One registered session as seen by the loop body (lines 100-108): its
`mxid`, whether cancellation is delivered during its jitter sleep (line 102),
and the outcome of its `sync()` call. -/
structure SessionB where
  mxid : ℕ
  jitterCancelled : Bool
  syncOutcome : SyncOutcome
deriving DecidableEq

/-- The per-tick `for user in User.by_username.values()` body, lines 100-108.
Returns the `mxid`s of the sessions whose `sync()` was invoked, in order, and
whether the tick terminated the loop (cancellation).  A `CancelledError`
during the jitter sleep propagates (it is outside the `try`); one during
`sync()` hits the `except asyncio.CancelledError: return`; any other `sync()`
exception hits `except Exception` (logged) and the loop continues. -/
def runTick : List SessionB → List ℕ × Bool
  | [] => ([], false)
  | s :: rest =>
    if s.jitterCancelled then ([], true)
    else
      match s.syncOutcome with
      | .cancelled => ([s.mxid], true)
      | .ok => ((runTick rest).1.cons s.mxid, (runTick rest).2)
      | .err => ((runTick rest).1.cons s.mxid, (runTick rest).2)

/-- One iteration of the `while True` of `_actual_periodic_sync_loop`
(lines 94-108): the interval sleep (cancellation there returns, line 97-98),
then the per-session tick. -/
def runLoopIter (intervalCancelled : Bool) (sessions : List SessionB) : List ℕ × Bool :=
  if intervalCancelled then ([], true) else runTick sessions

/-- The inputs of one loop iteration: whether cancellation is delivered during
the interval sleep, and the sessions the registry holds at that tick. -/
structure LoopIter where
  intervalCancelled : Bool
  sessions : List SessionB

/-- The whole `_actual_periodic_sync_loop`, run on an explicit schedule of
iterations: collects every synced `mxid` until an iteration reports
cancellation. -/
def runSyncLoop : List LoopIter → List ℕ
  | [] => []
  | it :: rest =>
    let r := runLoopIter it.intervalCancelled it.sessions
    if r.2 then r.1 else r.1 ++ runSyncLoop rest

/-- Lines 110-118, `_periodic_sync_loop`: read `bridge.periodic_sync`; if
`interval <= 0` return immediately, otherwise run the actual loop. -/
def periodicSyncLoop (interval : ℤ) (iters : List LoopIter) : List ℕ :=
  if interval ≤ 0 then [] else runSyncLoop iters

/-- A tick containing no cancellation event syncs every registered session. -/
lemma runTick_no_cancel (l : List SessionB)
    (h : ∀ t ∈ l, t.jitterCancelled = false ∧ t.syncOutcome ≠ SyncOutcome.cancelled) :
    runTick l = (l.map SessionB.mxid, false) := by
  induction l with
  | nil => rfl
  | cons s rest ih =>
    obtain ⟨hs, hrest⟩ := List.forall_mem_cons.mp h
    have ih2 := ih hrest
    cases hout : s.syncOutcome <;>
      simp_all [runTick]

/-- A cancellation-free prefix passes control to the rest of the tick. -/
lemma runTick_append (l1 l2 : List SessionB)
    (h : ∀ t ∈ l1, t.jitterCancelled = false ∧ t.syncOutcome ≠ SyncOutcome.cancelled) :
    runTick (l1 ++ l2) = (l1.map SessionB.mxid ++ (runTick l2).1, (runTick l2).2) := by
  induction l1 with
  | nil => rfl
  | cons s rest ih =>
    obtain ⟨hs, hrest⟩ := List.forall_mem_cons.mp h
    have ih2 := ih hrest
    cases hout : s.syncOutcome <;>
      simp_all [runTick]

/-- Claim C6: within one tick, (i) if every session is cancellation-free, each
one's `sync()` is invoked even when earlier syncs raised ordinary exceptions;
(ii) after a cancellation-free prefix, a session whose `sync()` raises an
ordinary exception does not prevent the remaining sessions from being
processed; (iii) cancellation during a `sync()` call ends the tick with no
later session visited; (iv) cancellation during a jitter sleep ends the tick
with that session's `sync()` not invoked and no later session visited; (v)
cancellation during the interval sleep visits no session at all. -/
theorem c6_failure_isolation (pre post : List SessionB) (s : SessionB)
    (hpre : ∀ t ∈ pre, t.jitterCancelled = false ∧ t.syncOutcome ≠ SyncOutcome.cancelled) :
    ((∀ t ∈ post, t.jitterCancelled = false ∧ t.syncOutcome ≠ SyncOutcome.cancelled) →
      s.jitterCancelled = false → s.syncOutcome = SyncOutcome.err →
      runTick (pre ++ s :: post) = ((pre ++ s :: post).map SessionB.mxid, false))
    ∧ (s.jitterCancelled = false → s.syncOutcome = SyncOutcome.err →
      runTick (pre ++ s :: post) =
        (pre.map SessionB.mxid ++ s.mxid :: (runTick post).1, (runTick post).2))
    ∧ (s.jitterCancelled = false → s.syncOutcome = SyncOutcome.cancelled →
      runTick (pre ++ s :: post) = (pre.map SessionB.mxid ++ [s.mxid], true))
    ∧ (s.jitterCancelled = true →
      runTick (pre ++ s :: post) = (pre.map SessionB.mxid, true))
    ∧ runLoopIter true (pre ++ s :: post) = ([], true) := by
  refine ⟨?_, ?_, ?_, ?_, rfl⟩
  · intro hpost hj ho
    have : ∀ t ∈ pre ++ s :: post,
        t.jitterCancelled = false ∧ t.syncOutcome ≠ SyncOutcome.cancelled := by
      intro t ht
      rcases List.mem_append.mp ht with h1 | h2
      · exact hpre t h1
      · rcases List.mem_cons.mp h2 with rfl | h3
        · exact ⟨hj, by simp [ho]⟩
        · exact hpost t h3
    exact runTick_no_cancel _ this
  · intro hj ho
    rw [runTick_append pre (s :: post) hpre]
    simp [runTick, hj, ho]
  · intro hj ho
    rw [runTick_append pre (s :: post) hpre]
    simp [runTick, hj, ho]
  · intro hj
    rw [runTick_append pre (s :: post) hpre]
    simp [runTick, hj]

/-- Witness for C6: session 0 syncs normally, session 1's `sync()` raises an
ordinary exception, and session 2 is still synced afterwards. -/
theorem c6_failure_isolation_witness :
    runTick [⟨0, false, SyncOutcome.ok⟩, ⟨1, false, SyncOutcome.err⟩,
        ⟨2, false, SyncOutcome.ok⟩] = ([0, 1, 2], false) := by
  have h := (c6_failure_isolation [⟨0, false, SyncOutcome.ok⟩] [⟨2, false, SyncOutcome.ok⟩]
      ⟨1, false, SyncOutcome.err⟩ (by decide)).1 (by decide) rfl rfl
  simpa using h

/-- Claim C7: a non-positive configured `bridge.periodic_sync` interval makes
`_periodic_sync_loop` return before starting the loop, so no session's
`sync()` is ever invoked, whatever iterations would have followed. -/
theorem c7_nonpositive_interval (interval : ℤ) (iters : List LoopIter)
    (h : interval ≤ 0) :
    periodicSyncLoop interval iters = [] := by
  simp [periodicSyncLoop, h]

/-- Witness for C7: with interval 0 and a schedule holding a syncable session,
nothing is synced. -/
theorem c7_nonpositive_interval_witness :
    periodicSyncLoop 0 [⟨false, [⟨7, false, SyncOutcome.ok⟩]⟩] = [] :=
  c7_nonpositive_interval 0 [⟨false, [⟨7, false, SyncOutcome.ok⟩]⟩] (by decide)

/-- Line 100 iterates `User.by_username.values()`, a live CPython dict view,
while the loop body awaits (jitter sleep, `sync()`).  This models that
iteration when the registry may grow at those suspension points:
`grows[i] = true` means a session is added to the registry while the `i`-th
visited session is being processed.  CPython raises `RuntimeError`
("dictionary changed size during iteration") at the iterator's next advance
once the dict's size has changed, and entries already present keep their
insertion-order positions.  Returns the visited `mxid`s in order and whether
the iteration raised. -/
def liveVisit : List ℕ → List Bool → List ℕ × Bool
  | [], _ => ([], false)
  | s :: rest, [] => (s :: rest, false)
  | s :: rest, g :: gs =>
    if g then ([s], true)
    else ((liveVisit rest gs).1.cons s, (liveVisit rest gs).2)

/-- One tick's inputs under the live-view model: the registry contents at tick
start and the growth events during the tick. -/
structure LiveTick where
  reg : List ℕ
  grows : List Bool

/-- `_actual_periodic_sync_loop` under the live-view model: a `RuntimeError`
escaping a tick's `for` statement is uncaught, so it terminates the loop (the
task dies) and no further tick runs. -/
def runLiveLoop : List LiveTick → List (List ℕ)
  | [] => []
  | t :: rest =>
    let r := liveVisit t.reg t.grows
    if r.2 then [r.1] else r.1 :: runLiveLoop rest

/-- The sessions a live-view tick visits form an initial segment of the
registry as it stood at tick start. -/
lemma liveVisit_take (reg : List ℕ) (grows : List Bool) :
    ∃ k, (liveVisit reg grows).1 = reg.take k := by
  induction reg generalizing grows with
  | nil => exact ⟨0, by simp [liveVisit]⟩
  | cons s rest ih =>
    cases grows with
    | nil => exact ⟨rest.length + 1, by simp [liveVisit]⟩
    | cons g gs =>
      cases g
      · obtain ⟨k, hk⟩ := ih gs
        exact ⟨k + 1, by simp [liveVisit, hk]⟩
      · exact ⟨1, by simp [liveVisit]⟩

/-- A tick during which the registry never grows visits every session. -/
lemma liveVisit_no_growth (reg : List ℕ) (grows : List Bool)
    (h : (liveVisit reg grows).2 = false) : (liveVisit reg grows).1 = reg := by
  induction reg generalizing grows with
  | nil => simp [liveVisit]
  | cons s rest ih =>
    cases grows with
    | nil => simp [liveVisit]
    | cons g gs =>
      cases g
      · have h2 : (liveVisit rest gs).2 = false := by simpa [liveVisit] using h
        simp [liveVisit, ih gs h2]
      · simp [liveVisit] at h

/-- Claim C8 (counterexample): registry `[0, 1]` at tick start; a session `2`
is added while session `0` is being processed.  The iteration visits only
`[0]` — so the visited set is not the tick-start snapshot (`1` is skipped) —
and it raises, killing the loop, so the added session `2` is not visited on
any later tick either (there is none). -/
theorem c8_live_view_counterexample :
    liveVisit [0, 1] [true] = ([0], true)
    ∧ (1 : ℕ) ∉ (liveVisit [0, 1] [true]).1
    ∧ runLiveLoop [⟨[0, 1], [true]⟩, ⟨[0, 1, 2], []⟩] = [[0]] := by
  refine ⟨rfl, by decide, rfl⟩

/-- Claim C8 (amended): the tick iterates a live view, not a snapshot.  The
visited sessions form an initial segment of the tick-start registry (hence in
order, each at most once, and sessions added mid-tick — absent from the
tick-start registry — are never visited in that tick); if the registry did not
grow, every tick-start session is visited; if it grew, the iteration raises
`RuntimeError` and the periodic-sync loop terminates with no further tick. -/
theorem c8_live_view_amended (reg : List ℕ) (grows : List Bool) :
    (∃ k, (liveVisit reg grows).1 = reg.take k)
    ∧ (reg.Nodup → (liveVisit reg grows).1.Nodup)
    ∧ (∀ x, x ∉ reg → x ∉ (liveVisit reg grows).1)
    ∧ ((liveVisit reg grows).2 = false → (liveVisit reg grows).1 = reg)
    ∧ ((liveVisit reg grows).2 = true →
        ∀ rest, runLiveLoop (⟨reg, grows⟩ :: rest) = [(liveVisit reg grows).1]) := by
  obtain ⟨k, hk⟩ := liveVisit_take reg grows
  refine ⟨⟨k, hk⟩, ?_, ?_, liveVisit_no_growth reg grows, ?_⟩
  · intro hnd
    rw [hk]
    exact (List.take_sublist k reg).nodup hnd
  · intro x hx hmem
    rw [hk] at hmem
    exact hx ((List.take_sublist k reg).mem hmem)
  · intro hr rest
    simp [runLiveLoop, hr]

/-- Witness for C8: at registry `[0, 1]` with a growth event during the first
session, the visited list is duplicate-free and the loop ends after that
single truncated tick. -/
theorem c8_live_view_amended_witness :
    (liveVisit [0, 1] [true]).1.Nodup
    ∧ runLiveLoop [⟨[0, 1], [true]⟩, ⟨[0, 1, 2], []⟩] = [(liveVisit [0, 1] [true]).1] := by
  refine ⟨(c8_live_view_amended [0, 1] [true]).2.1 (by decide), ?_⟩
  exact (c8_live_view_amended [0, 1] [true]).2.2.2.2 (by decide) [⟨[0, 1, 2], []⟩]

/-- The `bridge.resend_bridge_info` configuration entry: its in-memory value
and its persisted (on-disk) value; `config.save()` copies memory to disk. -/
structure ResendConfig where
  mem : Bool
  disk : Bool

/-- One portal yielded by `Portal.all_with_room()`: its id and whether its
`update_bridge_info()` call returns normally (`false` = raises). -/
structure PortalB where
  pid : ℕ
  updateOk : Bool

/-- The `async for` of lines 129-130: await `update_bridge_info()` on each
portal in order; an exception propagates (there is no handler), aborting the
iteration.  Returns the portals on which `update_bridge_info` was invoked and
whether the sweep completed normally. -/
def sweepPortals : List PortalB → List ℕ × Bool
  | [] => ([], true)
  | p :: rest =>
    if p.updateOk then ((sweepPortals rest).1.cons p.pid, (sweepPortals rest).2)
    else ([p.pid], false)

/-- The observable outcome of `resend_bridge_info`. -/
structure ResendResult where
  config : ResendConfig
  visited : List ℕ
  ok : Bool

/-- Lines 125-131, `resend_bridge_info`: set the config flag to `False`
(line 126), `config.save()` (line 127), then sweep the portals. -/
def resend_bridge_info (cfg : ResendConfig) (portals : List PortalB) : ResendResult :=
  let cfg1 : ResendConfig := { cfg with mem := false }
  let cfg2 : ResendConfig := { cfg1 with disk := cfg1.mem }
  let r := sweepPortals portals
  { config := cfg2, visited := r.1, ok := r.2 }

/-- The portals a sweep touches form an initial segment of the portal list. -/
lemma sweepPortals_take (portals : List PortalB) :
    ∃ k, (sweepPortals portals).1 = (portals.map PortalB.pid).take k := by
  induction portals with
  | nil => exact ⟨0, rfl⟩
  | cons p rest ih =>
    cases hp : p.updateOk
    · exact ⟨1, by simp [sweepPortals, hp]⟩
    · obtain ⟨k, hk⟩ := ih
      exact ⟨k + 1, by simp [sweepPortals, hp, hk]⟩

/-- A sweep over portals whose updates all succeed touches all of them. -/
lemma sweepPortals_all_ok (portals : List PortalB)
    (h : ∀ p ∈ portals, p.updateOk = true) :
    sweepPortals portals = (portals.map PortalB.pid, true) := by
  induction portals with
  | nil => rfl
  | cons p rest ih =>
    obtain ⟨hp, hrest⟩ := List.forall_mem_cons.mp h
    simp [sweepPortals, hp, ih hrest]

/-- Claim C3 (counterexample): with two portals where the first one's
`update_bridge_info` raises, the second portal is never visited — the sweep
does not tolerate individual failures. -/
theorem c3_sweep_aborts_counterexample :
    (resend_bridge_info ⟨true, true⟩ [⟨0, false⟩, ⟨1, true⟩]).visited = [0]
    ∧ (1 : ℕ) ∉ (resend_bridge_info ⟨true, true⟩ [⟨0, false⟩, ⟨1, true⟩]).visited
    ∧ (resend_bridge_info ⟨true, true⟩ [⟨0, false⟩, ⟨1, true⟩]).ok = false := by
  refine ⟨rfl, by decide, rfl⟩

/-- Claim C3 (amended): the sweep clears and persists the resend flag before
iterating (so it is cleared whatever happens afterwards, and with 0 rooms the
sweep completes without error with the flag cleared); it calls
`updateBridgeInfo` on each room at most once, in portal order — on every room
when no call raises — but the first exception propagates and the remaining
rooms are not visited. -/
theorem c3_sweep_amended (cfg : ResendConfig) (portals : List PortalB) :
    (resend_bridge_info cfg portals).config.mem = false
    ∧ (resend_bridge_info cfg portals).config.disk = false
    ∧ (∃ k, (resend_bridge_info cfg portals).visited = (portals.map PortalB.pid).take k)
    ∧ ((∀ p ∈ portals, p.updateOk = true) →
        (resend_bridge_info cfg portals).visited = portals.map PortalB.pid
          ∧ (resend_bridge_info cfg portals).ok = true)
    ∧ (resend_bridge_info cfg []).visited = [] ∧ (resend_bridge_info cfg []).ok = true := by
  refine ⟨rfl, rfl, ?_, ?_, rfl, rfl⟩
  · exact sweepPortals_take portals
  · intro h
    have := sweepPortals_all_ok portals h
    constructor <;> simp [resend_bridge_info, this]

/-- Witness for C3: a three-portal sweep with every update succeeding visits
all three portals and clears the flag. -/
theorem c3_sweep_amended_witness :
    (resend_bridge_info ⟨true, true⟩ [⟨0, true⟩, ⟨1, true⟩, ⟨2, true⟩]).config.mem = false
    ∧ (resend_bridge_info ⟨true, true⟩ [⟨0, true⟩, ⟨1, true⟩, ⟨2, true⟩]).visited
        = [0, 1, 2] := by
  have h := c3_sweep_amended ⟨true, true⟩ [⟨0, true⟩, ⟨1, true⟩, ⟨2, true⟩]
  exact ⟨h.1, by simpa using (h.2.2.2.1 (by decide)).1⟩

/-- A coroutine enqueued via `add_startup_actions` in `start()` (lines 78-82):
`Puppet.init_cls(self)`, `self.resend_bridge_info()`, `self.signal.start()`. -/
inductive StartupItem
  | puppetInit
  | resendInfo
  | signalStart
deriving DecidableEq

/-- Observable events of the `start()` sequence.  `ran a` records that the
enqueued action `a` executed (this happens inside `await super().start()`,
which runs the queued startup actions and completes before returning). -/
inductive StartEvent
  | initUser
  | initPortal
  | enqueued (a : StartupItem)
  | ran (a : StartupItem)
  | baseStartDone
  | launchedPeriodicSync
  | launchedMetricsLoop
deriving DecidableEq

/-- The state threaded through `start()`: the pending startup-action queue and
the event log. -/
structure StartState where
  queue : List StartupItem
  log : List StartEvent

/-- `self.add_startup_actions(a)`: append to the queue. -/
def add_startup_actions (a : StartupItem) (s : StartState) : StartState :=
  { queue := s.queue ++ [a], log := s.log ++ [StartEvent.enqueued a] }

/-- `await super().start()`: the base class runs every queued startup action
and returns only once they are done. -/
def superStart (s : StartState) : StartState :=
  { queue := [], log := s.log ++ s.queue.map StartEvent.ran ++ [StartEvent.baseStartDone] }

/-- Lines 76-85, `SignalBridge.start()`, as an event trace; `resendFlag` is
the persisted `bridge.resend_bridge_info` configuration value read at
line 80. -/
def bridgeStart (resendFlag : Bool) : StartState :=
  let s0 : StartState := { queue := [], log := [] }
  let s1 : StartState := { s0 with log := s0.log ++ [StartEvent.initUser] }
  let s2 := add_startup_actions StartupItem.puppetInit s1
  let s3 : StartState := { s2 with log := s2.log ++ [StartEvent.initPortal] }
  let s4 := if resendFlag then add_startup_actions StartupItem.resendInfo s3 else s3
  let s5 := add_startup_actions StartupItem.signalStart s4
  let s6 := superStart s5
  let s7 : StartState := { s6 with log := s6.log ++ [StartEvent.launchedPeriodicSync] }
  { s7 with log := s7.log ++ [StartEvent.launchedMetricsLoop] }

/-- Claim C9: whatever the resend flag, the `start()` event log contains, in
this order: session-registry init, puppet-registry enqueue, portal-registry
init, (the resend enqueue when the flag is set,) the remote-network handler's
enqueue, the handler action's execution, base-startup completion, and only
then the launch of the sync loop and the metrics loop; and the handler's
action runs exactly once, so it never runs before those initializations were
issued. -/
theorem c9_start_order (b : Bool) :
    List.Sublist
      ([StartEvent.initUser, StartEvent.enqueued StartupItem.puppetInit, StartEvent.initPortal]
        ++ (if b then [StartEvent.enqueued StartupItem.resendInfo] else [])
        ++ [StartEvent.enqueued StartupItem.signalStart, StartEvent.ran StartupItem.signalStart,
            StartEvent.baseStartDone, StartEvent.launchedPeriodicSync,
            StartEvent.launchedMetricsLoop]) ((bridgeStart b).log)
    ∧ (bridgeStart b).log.count (StartEvent.ran StartupItem.signalStart) = 1 := by
  cases b <;> exact ⟨by decide, by decide⟩

/-- The operations of the bridge that run against the shared process state
after startup: an admission-control tick, a bridge-info resend sweep, a
periodic-sync iteration.  Only the admission-control tick's code mentions
`self.bridge_blocked`. -/
inductive BridgeOp
  | metricTick (cfg : LimitsConfig) (users : List PuppetActivity) (now_s : ℚ)
  | resendSweep (portals : List PortalB)
  | syncIter (it : LoopIter)

/-- The process-wide state those operations touch: `bridge_blocked`
(class attribute, line 63), the two Prometheus gauges (both start at 0), and
the persisted resend-flag configuration. -/
structure FullState where
  bridge_blocked : Bool
  blockingGauge : ℤ
  activeGauge : ℤ
  resendCfg : ResendConfig

/-- The state at class definition time: `bridge_blocked: bool = False`
(line 63), gauges at their Prometheus default 0. -/
def initState (rc : ResendConfig) : FullState :=
  { bridge_blocked := false, blockingGauge := 0, activeGauge := 0, resendCfg := rc }

/-- Effect of one operation on the shared state. -/
def applyOp (s : FullState) : BridgeOp → FullState
  | .metricTick cfg users now_s =>
    let r := updateActivePuppetMetric cfg users now_s s.bridge_blocked
    { s with
      bridge_blocked := r.bridge_blocked
      activeGauge := (r.activeUsers : ℤ)
      blockingGauge :=
        match r.blockingGauge with
        | some v => v
        | none => s.blockingGauge }
  | .resendSweep portals =>
    { s with resendCfg := (resend_bridge_info s.resendCfg portals).config }
  | .syncIter _ => s

/-- An admission-control tick with both `block_on_limit_reached` and
`max_puppet_limit` non-null — the only operation whose code assigns
`self.bridge_blocked`. -/
def fullyConfiguredTick : BridgeOp → Bool
  | .metricTick cfg _ _ => cfg.block_on_limit_reached.isSome && cfg.max_puppet_limit.isSome
  | _ => false

/-- No operation other than a fully configured tick changes `bridge_blocked`. -/
lemma applyOp_blocked_frame (s : FullState) (op : BridgeOp)
    (h : fullyConfiguredTick op = false) :
    (applyOp s op).bridge_blocked = s.bridge_blocked := by
  cases op with
  | metricTick cfg users now_s =>
    have hcfg : cfg.block_on_limit_reached = none ∨ cfg.max_puppet_limit = none := by
      rcases cfg with ⟨mxA, mnA, bl, ml⟩
      cases bl <;> cases ml <;> simp_all [fullyConfiguredTick]
    simpa [applyOp] using
      updateActivePuppetMetric_blocked_frame cfg users now_s s.bridge_blocked hcfg
  | resendSweep portals => rfl
  | syncIter it => rfl

/-- Claim C10: `bridge_blocked` starts `false`, and after any sequence of
operations none of which is an admission-control tick with both limit options
configured, it is still `false`. -/
theorem c10_blocked_initially_false (rc : ResendConfig) (ops : List BridgeOp)
    (h : ∀ op ∈ ops, fullyConfiguredTick op = false) :
    (initState rc).bridge_blocked = false
    ∧ (ops.foldl applyOp (initState rc)).bridge_blocked = false := by
  refine ⟨rfl, ?_⟩
  have main : ∀ (l : List BridgeOp) (s : FullState),
      (∀ op ∈ l, fullyConfiguredTick op = false) →
      (l.foldl applyOp s).bridge_blocked = s.bridge_blocked := by
    intro l
    induction l with
    | nil => intro s _; rfl
    | cons op rest ih =>
      intro s hl
      obtain ⟨hop, hrest⟩ := List.forall_mem_cons.mp hl
      rw [List.foldl_cons, ih _ hrest, applyOp_blocked_frame s op hop]
  rw [main ops (initState rc) h]
  rfl

/-- Witness for C10: a partially configured tick, a resend sweep and a sync
iteration leave `bridge_blocked` at `false`. -/
theorem c10_blocked_initially_false_witness :
    (([BridgeOp.metricTick ⟨none, 0, none, some 5⟩ [] 0,
        BridgeOp.resendSweep [⟨0, true⟩],
        BridgeOp.syncIter ⟨false, []⟩] : List BridgeOp).foldl applyOp
      (initState ⟨true, true⟩)).bridge_blocked = false :=
  (c10_blocked_initially_false ⟨true, true⟩ _
    (by intro op hop; fin_cases hop <;> rfl)).2

end MautrixSignal
